import Mathlib

/-
Verification development for react-midi-context (src/src/index.tsx).

The repository ships two concatenated revisions of index.tsx; the second
revision (lines 601-1073, the current one, whose compiled artifact is the
newest build output) is embedded here.  Where the first revision diverges
(the falsy value check in sendMIDICC, the missing return for afterTouch)
this is noted next to the affected definition.

Embedding conventions:
  - JS numbers that are always used as machine-independent small naturals
    (channels, controller numbers, values) are Nat; an argument that may be
    undefined is Option Nat.
  - A JS plain object used as a dictionary is an association list whose
    update preserves the key position of an existing key, matching the
    spread idiom ob2 = braces-spread(ob, k, v).
  - A JS object reference is modelled structurally; for device handles a
    distinguishing obj field stands for the reference identity that the JS
    Set and the === operator compare.
  - Code that throws is modelled with Except or an explicit error
    constructor in the result type.
-/

/-- Property lookup on a JS object modelled as an association list. -/
def objGet {α β : Type} [DecidableEq α] : List (α × β) → α → Option β
  | [], _ => none
  | (k, v) :: rest, a => if k = a then some v else objGet rest a

/-- Property update with spread semantics: an existing key keeps its
position and receives the new value, a fresh key is appended. -/
def objSet {α β : Type} [DecidableEq α] : List (α × β) → α → β → List (α × β)
  | [], k, v => [(k, v)]
  | (k', v') :: rest, k, v =>
      if k' = k then (k, v) :: rest else (k', v') :: objSet rest k v

theorem objGet_objSet_self {α β : Type} [DecidableEq α]
    (m : List (α × β)) (k : α) (v : β) : objGet (objSet m k v) k = some v := by
  induction m with
  | nil => simp [objSet, objGet]
  | cons hd tl ih =>
      obtain ⟨k', v'⟩ := hd
      by_cases hk : k' = k
      · simp [objSet, hk, objGet]
      · simp [objSet, hk, objGet, ih]

theorem objGet_objSet_ne {α β : Type} [DecidableEq α]
    (m : List (α × β)) (k k' : α) (v : β) (h : k' ≠ k) :
    objGet (objSet m k v) k' = objGet m k' := by
  induction m with
  | nil => simp [objSet, objGet, Ne.symm h]
  | cons hd tl ih =>
      obtain ⟨a, b⟩ := hd
      by_cases ha : a = k
      · subst ha
        simp [objSet, objGet, Ne.symm h]
      · simp [objSet, ha, objGet, ih]

/-- Embeds translateTypeToStatusByte, src/src/index.tsx lines 605-617
(current revision; every case returns, so the switch is an if chain).
In the first revision (lines 20-32) the afterTouch case lacks a return
and falls through to the cc case, yielding 0xB0. -/
def translateTypeToStatusByte (type : String) : Nat :=
  if type = "noteOff" then 0x80
  else if type = "noteOn" then 0x90
  else if type = "afterTouch" then 0xA0
  else if type = "cc" then 0xB0
  else if type = "controlChange" then 0xB0
  else if type = "programChange" then 0xC0
  else if type = "channelPressure" then 0xD0
  else if type = "pitchWheel" then 0xE0
  else 0x00

/-- JS a || b for a : number | undefined and b a number: a when defined
and nonzero, else b. -/
def jsOr (a : Option Nat) (b : Nat) : Nat :=
  match a with
  | some v => if v ≠ 0 then v else b
  | none => b

/-- JS nullish coalescing a ?? b on number | undefined. -/
def jsNullish (a b : Option Nat) : Option Nat :=
  match a with
  | some v => some v
  | none => b

/-- An output device handle: the id string and whether its send capability
throws when invoked. -/
structure Device where
  id : String
  sendFails : Bool
deriving Repr, DecidableEq

/-- The MIDICommand argument object of sendMIDIMessage (current revision,
lines 619-628); absent JS fields are none. -/
structure MIDICommand where
  channel : Option Nat
  cc : Option Nat
  value : Option Nat
  velocity : Option Nat
  pitch : Option Nat
  device : Option Device
  type : Option String
  log : Bool
deriving Repr, DecidableEq

/-- Observable outcome of sendMIDIMessage: the byte list handed to the
device send capability (none when no device was present) and the returned
result string. -/
structure SendOutcome where
  handed : Option (List Nat)
  result : String
deriving Repr, DecidableEq

/-- Embeds sendMIDIMessage, src/src/index.tsx lines 630-654 (current
revision: a single device, no array branch).  The message is
[status + channel, pitch || (cc || 0), value || 0]; a throwing send is
caught and reported as a string. -/
def sendMIDIMessage (props : MIDICommand) : SendOutcome :=
  let type := props.type.getD "cc"
  let firstStatusByte := translateTypeToStatusByte type
  let statusBytes := firstStatusByte + props.channel.getD 0
  let msg := [statusBytes, jsOr props.pitch (jsOr props.cc 0), jsOr props.value 0]
  match props.device with
  | none => { handed := none, result := "No device specified" }
  | some d =>
      if d.sendFails then
        { handed := some msg, result := "an error occured." }
      else
        { handed := some msg,
          result := "MIDI message successfully sent : " ++
            String.intercalate "," (msg.map toString) }

/-- One call to the value store set operation: the device id and the
channel, cc and value fields of the argument object. -/
structure SetCmd where
  deviceId : String
  channel : Nat
  cc : Nat
  value : Nat
deriving Repr, DecidableEq

/-- The useStoreData ref contents: byChannel maps a channel to an object
from cc to value; byDevice maps a device id to an object from channel to
an object from cc to value (src/src/index.tsx lines 704-708). -/
structure Store where
  byChannel : List (Nat × List (Nat × Nat))
  byDevice : List (String × List (Nat × List (Nat × Nat)))
deriving Repr, DecidableEq

/-- The initial ref value: braces-empty byDevice and byChannel. -/
def emptyStore : Store := { byChannel := [], byDevice := [] }

/-- Embeds the set callback of useStoreData, src/src/index.tsx lines
724-744 (current revision; the first revision at lines 221-241 is
identical).  Both indexes are rebuilt in one assignment with nested
spreads; a spread of undefined contributes nothing, hence the getD []. -/
def setOp (s : Store) (c : SetCmd) : Store :=
  { byChannel :=
      objSet s.byChannel c.channel
        (objSet ((objGet s.byChannel c.channel).getD []) c.cc c.value),
    byDevice :=
      objSet s.byDevice c.deviceId
        (objSet ((objGet s.byDevice c.deviceId).getD []) c.channel
          (objSet
            (((objGet s.byDevice c.deviceId).bind
                (fun m => objGet m c.channel)).getD [])
            c.cc c.value)) }

/-- Reading byChannel at a channel and cc, as the expression
store.current.byChannel[channel][cc] would when nothing throws. -/
def lookupCC (s : Store) (ch cc : Nat) : Option Nat :=
  (objGet s.byChannel ch).bind (fun m => objGet m cc)

/-- Reading byDevice at a device id, channel and cc. -/
def lookupDev (s : Store) (d : String) (ch cc : Nat) : Option Nat :=
  ((objGet s.byDevice d).bind (fun m => objGet m ch)).bind (fun m => objGet m cc)

/-- Folding a list of set calls over a starting store. -/
def runFrom (s : Store) (ops : List SetCmd) : Store := ops.foldl setOp s

/-- The store reached from the initial ref value by a list of set calls. -/
def runOps (ops : List SetCmd) : Store := runFrom emptyStore ops

/-- Modelled from the spec, for comparison with the code: the byChannel
index is last writer wins across devices, so the value at (ch, cc) is the
value of the last update in the trace targeting that pair. -/
def specLatestWrite : List SetCmd → Nat → Nat → Option Nat
  | [], _, _ => none
  | c :: rest, ch, cc =>
      match specLatestWrite rest ch cc with
      | some v => some v
      | none => if c.channel = ch ∧ c.cc = cc then some c.value else none

/-- Modelled from the spec, for comparison with the code: the byDevice
index holds, per (deviceId, channel, cc), the value of the last update in
the trace targeting that triple. -/
def specLatestWriteDev : List SetCmd → String → Nat → Nat → Option Nat
  | [], _, _, _ => none
  | c :: rest, d, ch, cc =>
      match specLatestWriteDev rest d ch cc with
      | some v => some v
      | none =>
          if c.deviceId = d ∧ c.channel = ch ∧ c.cc = cc then some c.value
          else none

theorem lookupCC_setOp (s : Store) (c : SetCmd) (ch cc : Nat) :
    lookupCC (setOp s c) ch cc =
      if c.channel = ch ∧ c.cc = cc then some c.value
      else lookupCC s ch cc := by
  by_cases hch : c.channel = ch
  · subst hch
    by_cases hcc : c.cc = cc
    · subst hcc
      simp [lookupCC, setOp, objGet_objSet_self]
    · simp only [lookupCC, setOp, objGet_objSet_self, Option.some_bind]
      rw [objGet_objSet_ne _ _ _ _ (Ne.symm hcc)]
      simp only [hcc, and_false, if_false]
      cases hmm : objGet s.byChannel c.channel <;> simp [hmm, objGet]
  · simp only [lookupCC, setOp]
    rw [objGet_objSet_ne _ _ _ _ (Ne.symm hch)]
    simp [hch]

theorem lookupDev_setOp (s : Store) (c : SetCmd) (d : String) (ch cc : Nat) :
    lookupDev (setOp s c) d ch cc =
      if c.deviceId = d ∧ c.channel = ch ∧ c.cc = cc then some c.value
      else lookupDev s d ch cc := by
  by_cases hd : c.deviceId = d
  · subst hd
    by_cases hch : c.channel = ch
    · subst hch
      by_cases hcc : c.cc = cc
      · subst hcc
        simp [lookupDev, setOp, objGet_objSet_self]
      · simp only [lookupDev, setOp, objGet_objSet_self, Option.some_bind]
        rw [objGet_objSet_ne _ _ _ _ (Ne.symm hcc)]
        simp only [hcc, and_false, if_false]
        cases hmm : objGet s.byDevice c.deviceId with
        | none => simp [hmm, objGet]
        | some dm =>
            cases hcm : objGet dm c.channel <;> simp [hmm, hcm, objGet]
    · simp only [lookupDev, setOp, objGet_objSet_self, Option.some_bind]
      rw [objGet_objSet_ne _ _ _ _ (Ne.symm hch)]
      simp only [hch, false_and, and_false, if_false]
      cases hmm : objGet s.byDevice c.deviceId <;> simp [hmm, objGet]
  · simp only [lookupDev, setOp]
    rw [objGet_objSet_ne _ _ _ _ (Ne.symm hd)]
    simp [hd]

theorem lookupCC_runFrom (ops : List SetCmd) (s : Store) (ch cc : Nat) :
    lookupCC (runFrom s ops) ch cc =
      match specLatestWrite ops ch cc with
      | some v => some v
      | none => lookupCC s ch cc := by
  induction ops generalizing s with
  | nil => simp [runFrom, specLatestWrite]
  | cons c rest ih =>
      show lookupCC (runFrom (setOp s c) rest) ch cc = _
      rw [ih]
      simp only [specLatestWrite, lookupCC_setOp]
      cases specLatestWrite rest ch cc with
      | some v => simp
      | none => by_cases hp : c.channel = ch ∧ c.cc = cc <;> simp [hp]

theorem lookupDev_runFrom (ops : List SetCmd) (s : Store) (d : String)
    (ch cc : Nat) :
    lookupDev (runFrom s ops) d ch cc =
      match specLatestWriteDev ops d ch cc with
      | some v => some v
      | none => lookupDev s d ch cc := by
  induction ops generalizing s with
  | nil => simp [runFrom, specLatestWriteDev]
  | cons c rest ih =>
      show lookupDev (runFrom (setOp s c) rest) d ch cc = _
      rw [ih]
      simp only [specLatestWriteDev, lookupDev_setOp]
      cases specLatestWriteDev rest d ch cc with
      | some v => simp
      | none =>
          by_cases hp : c.deviceId = d ∧ c.channel = ch ∧ c.cc = cc <;>
            simp [hp]

/-- The optional argument object of the get callback; the device handle is
represented by its id, the only property the code reads from it. -/
structure GetProps where
  channel : Option Nat
  cc : Option Nat
  device : Option String
deriving Repr, DecidableEq

/-- The possible results of the get callback: the whole store, a channel
object (or undefined), a single value (or undefined), or a thrown
TypeError. -/
inductive GetResult where
  | store (s : Store)
  | channelObj (m : Option (List (Nat × Nat)))
  | ccValue (v : Option Nat)
  | jsError (msg : String)
deriving Repr, DecidableEq

/-- Truthiness of a number | undefined selector: defined and nonzero. -/
def truthyNum (a : Option Nat) : Bool :=
  match a with
  | some n => n ≠ 0
  | none => false

/-- Message of the TypeError thrown by spreading a plain object or
undefined into an array literal. -/
def iterErrorMsg : String := "TypeError: object is not iterable"

/-- Message of the TypeError thrown by indexing into undefined. -/
def undefErrorMsg : String := "TypeError: cannot read properties of undefined"

/-- Embeds the get callback of useStoreData, named getOp here because the
bare name is taken by MonadState, src/src/index.tsx lines
710-723 (current revision; the first revision at lines 207-220 is
identical).  The device branch spreads byDevice at the device id into an
array literal; set only ever stores plain nested objects there (and an
unknown id yields undefined), neither of which is iterable, so that
branch always throws.  The byChannel[channel][cc] read throws when the
channel object is undefined. -/
def getOp (s : Store) (props : Option GetProps) : GetResult :=
  match props with
  | none => .store s
  | some p =>
      match p.device with
      | some _ => .jsError iterErrorMsg
      | none =>
          if ¬ truthyNum p.channel then .store s
          else
            let ch := p.channel.getD 0
            if ¬ truthyNum p.cc then .channelObj (objGet s.byChannel ch)
            else
              match objGet s.byChannel ch with
              | none => .jsError undefErrorMsg
              | some m => .ccValue (objGet m (p.cc.getD 0))

/-- A record shape the get device branch filter expects: the filter
callback reads record.channel and record.cc. -/
structure DevRecord where
  channel : Nat
  cc : Nat
  value : Nat
deriving Repr, DecidableEq

/-- Embeds the filter callback inside the get device branch (lines
714-718): a truthy channel selector rejects records of another channel, a
truthy cc selector rejects records of another cc, everything else
passes. -/
def recordPasses (channel cc : Option Nat) (r : DevRecord) : Bool :=
  if truthyNum channel ∧ r.channel ≠ channel.getD 0 then false
  else if truthyNum cc ∧ r.cc ≠ cc.getD 0 then false
  else true

/-- Embeds sendMIDICC, src/src/index.tsx lines 837-851 (current
revision): typeof checks on channel, cc and value, a truthiness check on
device, then sendMIDIMessage with type cc and a store write keyed by the
device id.  In the first revision (lines 369-383) the value check is the
falsy !(value), which also throws for value = 0.  A thrown error is the
Except error case; the ok case carries the send outcome and the updated
store. -/
def sendMIDICC (s : Store) (channel cc value : Option Nat)
    (device : Option Device) : Except String (SendOutcome × Store) :=
  match channel with
  | none => .error "no channel provided for cc. Expected a number and received undefined"
  | some ch =>
      match cc with
      | none => .error "no cc# provided for cc. Expected a number and received undefined"
      | some ccn =>
          match value with
          | none => .error "no value provided for cc. Expected a number and received undefined"
          | some v =>
              match device with
              | none => .error "no device provided for cc. Expected a MIDIOutputDevice and recieved undefined"
              | some d =>
                  .ok
                    (sendMIDIMessage
                      { channel := some ch, cc := some ccn, value := some v,
                        velocity := none, pitch := none, device := some d,
                        type := some "cc", log := false },
                     setOp s { deviceId := d.id, channel := ch, cc := ccn,
                               value := v })

/-- Embeds sendMIDINoteOn, src/src/index.tsx lines 853-864 (current
revision): typeof checks on channel and pitch, at least one of velocity
and value numeric, a truthy device; then sendMIDIMessage with type noteOn
and value := value ?? velocity.  No store write. -/
def sendMIDINoteOn (channel pitch value velocity : Option Nat)
    (device : Option Device) : Except String SendOutcome :=
  match channel with
  | none => .error "no channel provided for noteOn. Expected a number and received undefined"
  | some ch =>
      match pitch with
      | none => .error "no pitch provided for noteOn. Expected a number and received undefined"
      | some p =>
          if velocity = none ∧ value = none then
            .error "no value/velocity provided for noteOn. Expected a number and received undefined"
          else
            match device with
            | none => .error "no device provided for noteOn. Expected a MIDIOutputDevice and recieved undefined"
            | some d =>
                .ok
                  (sendMIDIMessage
                    { channel := some ch, cc := none,
                      value := jsNullish value velocity,
                      velocity := none, pitch := some p, device := some d,
                      type := some "noteOn", log := false })

/-- Embeds sendMIDINoteOff, src/src/index.tsx lines 866-876 (current
revision): typeof checks on channel and pitch, a truthy device; then
sendMIDIMessage with type noteOff and value forced to 0. -/
def sendMIDINoteOff (channel pitch : Option Nat) (device : Option Device) :
    Except String SendOutcome :=
  match channel with
  | none => .error "no channel provided for noteOff. Expected a number and received undefined"
  | some ch =>
      match pitch with
      | none => .error "no pitch provided for noteOff. Expected a number and received undefined"
      | some p =>
          match device with
          | none => .error "no device provided for noteOff. Expected a MIDIOutputDevice and received undefined"
          | some d =>
              .ok
                (sendMIDIMessage
                  { channel := some ch, cc := none, value := some 0,
                    velocity := none, pitch := some p, device := some d,
                    type := some "noteOff", log := false })

/-- An input device handle: id, connection state, and whether it carries
an open capability (hasOpen = false models a handle whose open property
is missing, so invoking it throws). -/
structure InputHandle where
  id : String
  connection : String
  hasOpen : Bool
deriving Repr, DecidableEq

/-- Embeds openMIDIInput, src/src/index.tsx lines 669-684 (current
revision), for object inputs: when the connection is already open and no
callback is supplied it returns the input before ever touching the open
capability; otherwise it assigns onmidimessage (not observable here) and
awaits input.open(), which throws when the capability is missing. -/
def openMIDIInputM (input : InputHandle) (hasCallback : Bool) :
    Except String InputHandle :=
  if input.connection = "open" ∧ hasCallback = false then .ok input
  else if input.hasOpen then .ok input
  else .error "TypeError: input.open is not a function"

/-- The registry reducer actions (src/src/index.tsx lines 764-773): add
and remove; any other action type throws and is not representable. -/
inductive ReducerAction (α : Type) where
  | add (value : α)
  | remove (value : α)
deriving Repr

/-- First-occurrence de-duplication with an accumulator of already seen
elements: the order and survivor choice of spreading a JS Set built from
a list. -/
def dedupAux {α : Type} [DecidableEq α] (seen : List α) : List α → List α
  | [] => []
  | x :: xs =>
      if x ∈ seen then dedupAux seen xs
      else x :: dedupAux (x :: seen) xs

/-- Embeds the reducer of MIDIProvider, src/src/index.tsx lines 764-773
(current revision; the first revision at lines 260-269 is identical).
The add case is the spread of a Set built from state plus the new value:
identity-based de-duplication keeping first occurrences.  The remove case
filters out entries whose id equals the id of the argument.  idOf
projects the id property the remove case compares. -/
def reducer {α : Type} [DecidableEq α] (idOf : α → String) (state : List α) :
    ReducerAction α → List α
  | .add v => dedupAux [] (state ++ [v])
  | .remove v => state.filter (fun item => !(decide (idOf v = idOf item)))

/-- Embeds addMIDIInput, src/src/index.tsx lines 797-806 (current
revision, where openMIDIInput is awaited): requires midi access with
inputs, awaits openMIDIInput, dispatches the add action, returns true;
any throw is caught and reported as false with no dispatch.  Returns the
reported boolean and the connected-inputs registry afterwards. -/
def addMIDIInput (midiAccessAvailable : Bool) (registry : List InputHandle)
    (input : InputHandle) (hasCallback : Bool) : Bool × List InputHandle :=
  if ¬midiAccessAvailable then (false, registry)
  else
    match openMIDIInputM input hasCallback with
    | .ok _ => (true, reducer (fun i => i.id) registry (.add input))
    | .error _ => (false, registry)

/-- The full useStoreData state: the store ref, the subscribers ref
(callbacks represented by tokens), and a log of every callback invocation
the store itself ever performs.  Nothing in useStoreData invokes a
subscriber, so only an operation that appended to this log could witness
a notification. -/
structure StoreData where
  store : Store
  subscribers : List Nat
  notified : List Nat
deriving Repr, DecidableEq

/-- The set callback seen at the level of the whole useStoreData state:
it assigns store.current and touches nothing else (lines 724-744). -/
def setFull (sd : StoreData) (c : SetCmd) : StoreData :=
  { sd with store := setOp sd.store c }

/-- Embeds the subscribe callback, src/src/index.tsx lines 747-750
(current revision; lines 244-247 of the first are identical): Set.add of
the callback, and the returned closure performs Set.delete of that same
callback.  The closure is returned as a function on a later state. -/
def subscribe (sd : StoreData) (cb : Nat) :
    StoreData × (StoreData → StoreData) :=
  ({ sd with subscribers :=
      if cb ∈ sd.subscribers then sd.subscribers
      else sd.subscribers ++ [cb] },
   fun sd' =>
    { sd' with subscribers := sd'.subscribers.filter (fun x => !(decide (x = cb))) })

theorem sendMIDIMessage_handed (p : MIDICommand) (d : Device)
    (h : p.device = some d) :
    (sendMIDIMessage p).handed =
      some [translateTypeToStatusByte (p.type.getD "cc") + p.channel.getD 0,
            jsOr p.pitch (jsOr p.cc 0), jsOr p.value 0] := by
  simp only [sendMIDIMessage, h]
  cases hf : d.sendFails <;> simp [hf]

/-- C1: for every device, channel and cc, sendMIDICC with value 0 does not
throw, and the message handed to the device send capability is
[0xB0 + channel, cc, 0]; in particular channel 1 and cc 64 encode
[0xB1, 64, 0]. -/
theorem c1_sendMIDICC_value_zero :
    (∀ (s : Store) (ch ccn : Nat) (d : Device),
      ∃ out s', sendMIDICC s (some ch) (some ccn) (some 0) (some d) = .ok (out, s')
        ∧ out.handed = some [0xB0 + ch, ccn, 0])
    ∧ (∀ (s : Store) (d : Device),
      ∃ out s', sendMIDICC s (some 1) (some 64) (some 0) (some d) = .ok (out, s')
        ∧ out.handed = some [0xB1, 64, 0]) := by
  have main : ∀ (s : Store) (ch ccn : Nat) (d : Device),
      ∃ out s', sendMIDICC s (some ch) (some ccn) (some 0) (some d) = .ok (out, s')
        ∧ out.handed = some [0xB0 + ch, ccn, 0] := by
    intro s ch ccn d
    refine ⟨_, _, rfl, ?_⟩
    rw [sendMIDIMessage_handed _ d rfl]
    have hs : translateTypeToStatusByte "cc" = 0xB0 := rfl
    simp only [Option.getD_some, hs, jsOr]
    by_cases hcc : ccn = 0 <;> simp [hcc]
  refine ⟨main, fun s d => ?_⟩
  obtain ⟨out, s', heq, hh⟩ := main s 1 64 d
  exact ⟨out, s', heq, hh⟩

/-- All type strings the status byte switch recognizes. -/
def recognizedTypes : List String :=
  ["noteOff", "noteOn", "afterTouch", "cc", "controlChange",
   "programChange", "channelPressure", "pitchWheel"]

/-- C2: translateTypeToStatusByte is a pure total function returning 0x80
for noteOff, 0x90 for noteOn, 0xA0 for afterTouch, 0xB0 for cc and
controlChange, 0xC0 for programChange, 0xD0 for channelPressure, 0xE0 for
pitchWheel, and 0x00 for every other string. -/
theorem c2_statusByte_table :
    translateTypeToStatusByte "noteOff" = 0x80
    ∧ translateTypeToStatusByte "noteOn" = 0x90
    ∧ translateTypeToStatusByte "afterTouch" = 0xA0
    ∧ translateTypeToStatusByte "cc" = 0xB0
    ∧ translateTypeToStatusByte "controlChange" = 0xB0
    ∧ translateTypeToStatusByte "programChange" = 0xC0
    ∧ translateTypeToStatusByte "channelPressure" = 0xD0
    ∧ translateTypeToStatusByte "pitchWheel" = 0xE0
    ∧ ∀ t : String, t ∉ recognizedTypes → translateTypeToStatusByte t = 0x00 := by
  refine ⟨rfl, rfl, rfl, rfl, rfl, rfl, rfl, rfl, ?_⟩
  intro t ht
  simp only [recognizedTypes, List.mem_cons, List.not_mem_nil, or_false,
    not_or] at ht
  obtain ⟨h1, h2, h3, h4, h5, h6, h7, h8⟩ := ht
  simp [translateTypeToStatusByte, h1, h2, h3, h4, h5, h6, h7, h8]

/-- C2 witness: an unrecognized type maps to 0x00. -/
theorem c2_statusByte_table_witness :
    translateTypeToStatusByte "unknownType" = 0x00 :=
  c2_statusByte_table.2.2.2.2.2.2.2.2 "unknownType" (by decide)

/-- C5: with a device present the encoder hands the device
[statusByte(type) + (channel ?? 0), dataByte1, dataByte2], the data bytes
defaulting to 0 when neither cc nor pitch, respectively no value, is
supplied; sendMIDINoteOn(channel 1, pitch 60, velocity 100) hands
[0x91, 60, 100] and sendMIDINoteOff(channel 1, pitch 60) hands
[0x81, 60, 0]. -/
theorem c5_encoder_contract :
    (∀ (ch cc v vel p : Option Nat) (d : Device) (t : Option String) (lg : Bool),
      (sendMIDIMessage { channel := ch, cc := cc, value := v,
                         velocity := vel, pitch := p, device := some d,
                         type := t, log := lg }).handed
        = some [translateTypeToStatusByte (t.getD "cc") + ch.getD 0,
                jsOr p (jsOr cc 0), jsOr v 0])
    ∧ (∀ (ch : Option Nat) (d : Device) (t : Option String) (lg : Bool),
      (sendMIDIMessage { channel := ch, cc := none, value := none,
                         velocity := none, pitch := none, device := some d,
                         type := t, log := lg }).handed
        = some [translateTypeToStatusByte (t.getD "cc") + ch.getD 0, 0, 0])
    ∧ (∀ d : Device, ∃ out,
        sendMIDINoteOn (some 1) (some 60) none (some 100) (some d) = .ok out
        ∧ out.handed = some [0x91, 60, 100])
    ∧ (∀ d : Device, ∃ out,
        sendMIDINoteOff (some 1) (some 60) (some d) = .ok out
        ∧ out.handed = some [0x81, 60, 0]) := by
  refine ⟨?_, ?_, ?_, ?_⟩
  · intro ch cc v vel p d t lg
    exact sendMIDIMessage_handed _ d rfl
  · intro ch d t lg
    rw [sendMIDIMessage_handed _ d rfl]
    rfl
  · intro d
    refine ⟨_, rfl, ?_⟩
    rw [sendMIDIMessage_handed _ d rfl]
    rfl
  · intro d
    refine ⟨_, rfl, ?_⟩
    rw [sendMIDIMessage_handed _ d rfl]
    rfl

/-- C4: immediately after any update both indexes hold the written value
for the written triple, and in every reachable store each index equals
the latest matching write of the trace (so neither index can lag the
other: the single assignment in set is atomic for the caller), byChannel
being last writer wins across devices. -/
theorem c4_indexes_agree :
    ∀ (ops : List SetCmd) (c : SetCmd) (ch cc : Nat) (d : String),
      lookupCC (runOps (ops ++ [c])) c.channel c.cc = some c.value
      ∧ lookupDev (runOps (ops ++ [c])) c.deviceId c.channel c.cc = some c.value
      ∧ lookupCC (runOps ops) ch cc = specLatestWrite ops ch cc
      ∧ lookupDev (runOps ops) d ch cc = specLatestWriteDev ops d ch cc := by
  have hrun : ∀ (ops : List SetCmd) (c : SetCmd),
      runOps (ops ++ [c]) = setOp (runOps ops) c := by
    intro ops c
    simp [runOps, runFrom, List.foldl_append]
  have hCC : ∀ (ops : List SetCmd) (ch cc : Nat),
      lookupCC (runOps ops) ch cc = specLatestWrite ops ch cc := by
    intro ops ch cc
    rw [runOps, lookupCC_runFrom]
    cases specLatestWrite ops ch cc <;> simp [lookupCC, emptyStore, objGet]
  have hDev : ∀ (ops : List SetCmd) (d : String) (ch cc : Nat),
      lookupDev (runOps ops) d ch cc = specLatestWriteDev ops d ch cc := by
    intro ops d ch cc
    rw [runOps, lookupDev_runFrom]
    cases specLatestWriteDev ops d ch cc <;> simp [lookupDev, emptyStore, objGet]
  intro ops c ch cc d
  refine ⟨?_, ?_, hCC ops ch cc, hDev ops d ch cc⟩
  · rw [hrun, lookupCC_setOp]
    simp
  · rw [hrun, lookupDev_setOp]
    simp

/-- C3: evaluation at the failing input.  After
set(device out1, channel 1, cc 64, value 127) on the empty store, the
byChannel half of the round trip holds, but the device-scoped read throws
a TypeError (the code spreads the plain nested object stored under
byDevice[out1] into an array literal) instead of returning the records,
contradicting the round trip the spec and the README describe. -/
theorem c3_roundtrip_eval :
    (getOp (setOp emptyStore { deviceId := "out1", channel := 1, cc := 64, value := 127 })
        (some { channel := some 1, cc := some 64, device := none })
      = .ccValue (some 127))
    ∧ (getOp (setOp emptyStore { deviceId := "out1", channel := 1, cc := 64, value := 127 })
        (some { channel := some 1, cc := none, device := some "out1" })
      = .jsError iterErrorMsg) := by
  exact ⟨rfl, rfl⟩

/-- C6 counterexample: a (channel, cc) point query for a channel never
written throws a TypeError on the empty store instead of returning an
empty or undefined result. -/
theorem c6_counterexample :
    getOp emptyStore (some { channel := some 5, cc := some 1, device := none })
      = .jsError undefErrorMsg := rfl

/-- C6 amended: a channel-only query for an absent channel and a point
query for an absent cc under a present channel return undefined without
an error; but a point query whose channel object is absent throws a
TypeError, and every device-scoped query throws a TypeError. -/
theorem c6_amended_failure_semantics :
    ∀ (s : Store) (ch cc : Nat) (did : String) (m : List (Nat × Nat)),
      ch ≠ 0 → cc ≠ 0 →
      (objGet s.byChannel ch = none →
        getOp s (some { channel := some ch, cc := none, device := none })
          = .channelObj none
        ∧ getOp s (some { channel := some ch, cc := some cc, device := none })
          = .jsError undefErrorMsg)
      ∧ (objGet s.byChannel ch = some m → objGet m cc = none →
        getOp s (some { channel := some ch, cc := some cc, device := none })
          = .ccValue none)
      ∧ getOp s (some { channel := none, cc := none, device := some did })
          = .jsError iterErrorMsg := by
  intro s ch cc did m hch hcc
  refine ⟨fun hnone => ⟨?_, ?_⟩, fun hm hmc => ?_, rfl⟩
  · simp [getOp, truthyNum, hch, hnone]
  · simp [getOp, truthyNum, hch, hcc, hnone]
  · simp [getOp, truthyNum, hch, hcc, hm, hmc]

/-- C6 amended witness: concrete instances of the amended statement on
the empty store. -/
theorem c6_amended_failure_semantics_witness :
    getOp emptyStore (some { channel := some 5, cc := none, device := none })
      = .channelObj none
    ∧ getOp emptyStore (some { channel := none, cc := none, device := some "out1" })
      = .jsError iterErrorMsg := by
  have h := c6_amended_failure_semantics emptyStore 5 1 "out1" []
    (by decide) (by decide)
  exact ⟨(h.1 rfl).1, h.2.2⟩

/-- C10: zero-valued selectors are treated as absent: a channel selector 0
with no device returns the whole store, a cc selector 0 returns the whole
channel object, and the device branch filter passes every record when the
channel or cc selector is 0, exactly as when it is absent. -/
theorem c10_zero_selectors :
    (∀ s : Store,
      getOp s (some { channel := some 0, cc := none, device := none }) = .store s)
    ∧ (∀ (s : Store) (ch : Nat), ch ≠ 0 →
      getOp s (some { channel := some ch, cc := some 0, device := none })
        = .channelObj (objGet s.byChannel ch))
    ∧ (∀ (r : DevRecord) (cc : Option Nat),
      recordPasses (some 0) cc r = recordPasses none cc r)
    ∧ (∀ (r : DevRecord) (ch : Option Nat),
      recordPasses ch (some 0) r = recordPasses ch none r) := by
  refine ⟨?_, ?_, ?_, ?_⟩
  · intro s
    rfl
  · intro s ch hch
    simp [getOp, truthyNum, hch]
  · intro r cc
    simp [recordPasses, truthyNum]
  · intro r ch
    simp [recordPasses, truthyNum]

/-- C10 witness: concrete instances, including the hypothesis-bearing
second conjunct at channel 3 on the empty store. -/
theorem c10_zero_selectors_witness :
    getOp emptyStore (some { channel := some 3, cc := some 0, device := none })
      = .channelObj none
    ∧ recordPasses (some 0) none { channel := 7, cc := 9, value := 11 }
      = recordPasses none none { channel := 7, cc := 9, value := 11 } := by
  have h := c10_zero_selectors.2.1 emptyStore 3 (by decide)
  exact ⟨h.trans rfl, c10_zero_selectors.2.2.1 { channel := 7, cc := 9, value := 11 } none⟩

/-- A device handle as the registry sees it: obj models the JS object
reference identity (two handles with different obj are distinct objects
even when their id strings agree), id the id property. -/
structure DeviceHandle where
  obj : Nat
  id : String
deriving Repr, DecidableEq

theorem count_dedupAux {α : Type} [DecidableEq α] (l : List α) (a : α) :
    ∀ seen : List α,
      List.count a (dedupAux seen l) = if a ∈ l ∧ a ∉ seen then 1 else 0 := by
  induction l with
  | nil => intro seen; simp [dedupAux]
  | cons x xs ih =>
      intro seen
      by_cases hx : x ∈ seen
      · rw [dedupAux, if_pos hx, ih seen]
        by_cases hax : a = x
        · subst hax
          simp [hx]
        · simp [hax]
      · rw [dedupAux, if_neg hx]
        rw [List.count_cons, ih (x :: seen)]
        by_cases hax : a = x
        · subst hax
          simp [hx, List.mem_cons]
        · simp [hax, List.mem_cons, Ne.symm hax]

/-- C7 counterexample: two distinct handle objects sharing the id string
dev both survive two add dispatches from the empty registry, so the
registry has two entries for that id, not one: the Set in the reducer
de-duplicates by object identity, not by id. -/
theorem c7_counterexample :
    ((reducer (fun h => h.id)
        (reducer (fun h => h.id) ([] : List DeviceHandle)
          (.add { obj := 0, id := "dev" }))
        (.add { obj := 1, id := "dev" })).filter
      (fun h => decide (h.id = "dev"))).length = 2 := rfl

/-- C7 amended: adding the same handle object twice leaves exactly one
entry equal to it (and one add already leaves exactly one); uniqueness is
by object identity, not by id string, so two distinct handles sharing an
id both remain, as the counterexample shows. -/
theorem c7_amended_registry_add :
    ∀ (s : List DeviceHandle) (h : DeviceHandle),
      List.count h (reducer (fun x => x.id) s (.add h)) = 1
      ∧ List.count h
          (reducer (fun x => x.id) (reducer (fun x => x.id) s (.add h))
            (.add h)) = 1 := by
  intro s h
  constructor
  · rw [show reducer (fun x => x.id) s (.add h) = dedupAux [] (s ++ [h]) from rfl]
    rw [count_dedupAux]
    simp
  · rw [show reducer (fun x => x.id) (reducer (fun x => x.id) s (.add h)) (.add h)
        = dedupAux [] (reducer (fun x => x.id) s (.add h) ++ [h]) from rfl]
    rw [count_dedupAux]
    simp

/-- C8 counterexample: an input handle whose connection is already open
and that lacks the open capability, added with no callback, makes
openMIDIInput return before touching the missing capability, so
addMIDIInput reports true and inserts the handle into the registry,
contrary to the claim. -/
theorem c8_counterexample :
    addMIDIInput true []
      { id := "in1", connection := "open", hasOpen := false } false
      = (true, [{ id := "in1", connection := "open", hasOpen := false }]) := rfl

/-- C8 amended: for an input lacking the open capability, addMIDIInput
returns false without throwing and leaves the registry unchanged, except
when the connection is already open and no callback is supplied: then
openMIDIInput returns early without invoking open, and the input is added
with result true. -/
theorem c8_amended_addMIDIInput :
    ∀ (registry : List InputHandle) (input : InputHandle) (hasCallback : Bool),
      input.hasOpen = false →
      (¬(input.connection = "open" ∧ hasCallback = false) →
        addMIDIInput true registry input hasCallback = (false, registry))
      ∧ (input.connection = "open" → hasCallback = false →
        addMIDIInput true registry input hasCallback
          = (true, reducer (fun i => i.id) registry (.add input))) := by
  intro registry input cb hopen
  constructor
  · intro hnot
    have ho : openMIDIInputM input cb
        = .error "TypeError: input.open is not a function" := by
      simp [openMIDIInputM, hnot, hopen]
    simp [addMIDIInput, ho]
  · intro hconn hcb
    have ho : openMIDIInputM input cb = .ok input := by
      simp [openMIDIInputM, hconn, hcb]
    simp [addMIDIInput, ho]

/-- C8 amended witness: a closed handle lacking open is rejected and kept
out of the registry; an already open one without callback slips in. -/
theorem c8_amended_addMIDIInput_witness :
    addMIDIInput true [] { id := "in1", connection := "closed", hasOpen := false } false
      = (false, [])
    ∧ addMIDIInput true [] { id := "in2", connection := "open", hasOpen := false } false
      = (true, reducer (fun i => i.id) []
          (.add { id := "in2", connection := "open", hasOpen := false })) := by
  have h1 := c8_amended_addMIDIInput []
    { id := "in1", connection := "closed", hasOpen := false } false rfl
  have h2 := c8_amended_addMIDIInput []
    { id := "in2", connection := "open", hasOpen := false } false rfl
  exact ⟨h1.1 (by simp), h2.2 rfl rfl⟩

/-- C9: subscribe adds the callback to the subscriber set and hands back a
closure whose invocation removes that registration; and no sequence of
set calls ever invokes a registered subscriber (the set callback only
assigns store.current, so the notification log never grows and the
subscriber set is untouched). -/
theorem c9_subscribe_unsubscribe_silent_set :
    (∀ (sd : StoreData) (cb : Nat), cb ∈ (subscribe sd cb).1.subscribers)
    ∧ (∀ (sd : StoreData) (cb : Nat) (sd' : StoreData),
        cb ∉ ((subscribe sd cb).2 sd').subscribers)
    ∧ (∀ (sd : StoreData) (ops : List SetCmd),
        (ops.foldl setFull sd).subscribers = sd.subscribers
        ∧ (ops.foldl setFull sd).notified = sd.notified) := by
  refine ⟨?_, ?_, ?_⟩
  · intro sd cb
    by_cases h : cb ∈ sd.subscribers <;> simp [subscribe, h]
  · intro sd cb sd'
    simp [subscribe, List.mem_filter]
  · intro sd ops
    induction ops generalizing sd with
    | nil => exact ⟨rfl, rfl⟩
    | cons c rest ih =>
        have := ih (setFull sd c)
        simpa [setFull] using this
